import Mathlib

/-!
Verification of the vJoy ctypes binding layer (`vjoy/vjoy_interface.py`).

The Python source is shallowly embedded: enumerations become Lean
inductives, the fallible decoder becomes an `Except`-returning function,
class-level mutable state becomes explicit state passing, and the
filesystem / native library are passed in as function parameters.
Python runtime values that matter to the claims (integers versus
one-element tuples produced by trailing commas in the enum declaration)
are modelled by an explicit `PyVal` type.
-/

set_option autoImplicit false

namespace VJoy

/-- A Python runtime value, as far as the claims need to distinguish
them: integers, booleans and tuples of integers.  Enum members declared
with a trailing comma get a one-element tuple as their `.value`. -/
inductive PyVal where
  | int : Int → PyVal
  | bool : Bool → PyVal
  | tuple : List Int → PyVal
  deriving DecidableEq, Repr

/-- Embedding of `class VJoyState(enum.Enum)`: the possible vJoy device
states, exactly the five members of the source enum. -/
inductive VJoyState where
  | Owned
  | Free
  | Bust
  | Missing
  | Unknown
  deriving DecidableEq, Repr, Fintype

/-- The integer code each `VJoyState` member is declared with in the
source (`Owned = 0`, `Free = 1`, `Bust = 2`, `Missing = 3`,
`Unknown = 4`). -/
def VJoyState.code : VJoyState → Int
  | .Owned => 0
  | .Free => 1
  | .Bust => 2
  | .Missing => 3
  | .Unknown => 4

/-- Modelled from the spec: the status-code → `VJoyState` conversion.
The conversion function itself is not part of `vjoy_interface.py` (the
file only declares the enum; the classification of the raw value
returned by `GetVJDStatus` happens in a caller outside the provided
sources).  Per the spec, codes 0–3 map to the correspondingly named
variants and every other integer maps to `Unknown`; the conversion
never fails. -/
def vjoyStateFromCode (code : Int) : VJoyState :=
  if code = 0 then .Owned
  else if code = 1 then .Free
  else if code = 2 then .Bust
  else if code = 3 then .Missing
  else .Unknown

/-- Embedding of `class FFBPType(enum.Enum)`: the sixteen members
declared in the source.  Note the source declares no member with value
`0x09`. -/
inductive FFBPType where
  | PT_EFFREP
  | PT_ENVREP
  | PT_CONDREP
  | PT_PRIDREP
  | PT_CONSTREP
  | PT_RAMPREP
  | PT_CSTMREP
  | PT_SMPLREP
  | PT_EFOPREP
  | PT_BLKFRREP
  | PT_CTRLREP
  | PT_GAINREP
  | PT_SETCREP
  | PT_NEWEFREP
  | PT_BLKLDREP
  | PT_POOLREP
  deriving DecidableEq, Repr, Fintype

/-- The `.value` of each `FFBPType` member.  Every member in the source
is declared with a trailing comma (`PT_EFFREP = 0x01,`), so Python makes
each value a one-element tuple, not a bare integer. -/
def FFBPType.value : FFBPType → PyVal
  | .PT_EFFREP => .tuple [0x01]
  | .PT_ENVREP => .tuple [0x02]
  | .PT_CONDREP => .tuple [0x03]
  | .PT_PRIDREP => .tuple [0x04]
  | .PT_CONSTREP => .tuple [0x05]
  | .PT_RAMPREP => .tuple [0x06]
  | .PT_CSTMREP => .tuple [0x07]
  | .PT_SMPLREP => .tuple [0x08]
  | .PT_EFOPREP => .tuple [0x0A]
  | .PT_BLKFRREP => .tuple [0x0B]
  | .PT_CTRLREP => .tuple [0x0C]
  | .PT_GAINREP => .tuple [0x0D]
  | .PT_SETCREP => .tuple [0x0E]
  | .PT_NEWEFREP => .tuple [(0x01 + 0x10)]
  | .PT_BLKLDREP => .tuple [(0x02 + 0x10)]
  | .PT_POOLREP => .tuple [(0x03 + 0x10)]

/-- Embedding of `FFBPType.from_ctype`: the if/elif chain from the
source, with `raise GremlinError(...)` modelled as `Except.error`
carrying the formatted message
`"Invalid ffb type value {:d}".format(value)`. -/
def FFBPType.from_ctype (value : Int) : Except String FFBPType :=
  if value = 0x01 then .ok .PT_EFFREP
  else if value = 0x02 then .ok .PT_ENVREP
  else if value = 0x03 then .ok .PT_CONDREP
  else if value = 0x04 then .ok .PT_PRIDREP
  else if value = 0x05 then .ok .PT_CONSTREP
  else if value = 0x06 then .ok .PT_RAMPREP
  else if value = 0x07 then .ok .PT_CSTMREP
  else if value = 0x08 then .ok .PT_SMPLREP
  else if value = 0x0A then .ok .PT_EFOPREP
  else if value = 0x0B then .ok .PT_BLKFRREP
  else if value = 0x0C then .ok .PT_CTRLREP
  else if value = 0x0D then .ok .PT_GAINREP
  else if value = 0x0E then .ok .PT_SETCREP
  else if value = 0x01 + 0x10 then .ok .PT_NEWEFREP
  else if value = 0x02 + 0x10 then .ok .PT_BLKLDREP
  else if value = 0x03 + 0x10 then .ok .PT_POOLREP
  else .error ("Invalid ffb type value " ++ toString value)

/-- The set of integer codes actually declared by the `FFBPType` enum
(and accepted by `from_ctype`): the "write" codes 0x01–0x0E with 0x09
absent, plus the "feature" codes 0x11–0x13. -/
def ffbCodeSet : List Int :=
  [0x01, 0x02, 0x03, 0x04, 0x05, 0x06, 0x07, 0x08,
   0x0A, 0x0B, 0x0C, 0x0D, 0x0E, 0x11, 0x12, 0x13]

/-- The ctypes type names that appear in the source file. -/
inductive CType where
  | c_short
  | c_bool
  | c_wchar_p
  | c_int
  | c_uint
  | c_long
  | c_ulong
  | c_ubyte
  | c_uint32
  | c_void_p
  | c_char_p
  | c_ffb_callback
  deriving DecidableEq, Repr

/-- Whether a ctypes type is a raw pointer type. -/
def CType.isPointer : CType → Bool
  | .c_wchar_p => true
  | .c_void_p => true
  | .c_char_p => true
  | .c_ffb_callback => true
  | _ => false

/-- How ctypes converts a native return-register value to a Python
value, for the restype declarations the claims care about: `c_int`
reinterprets the value as a signed 32-bit integer, `c_bool` collapses
it to a truth value, other integer restypes are passed through. -/
def interpretRestype : CType → Int → PyVal
  | .c_bool, v => .bool (v != 0)
  | .c_int, v => .int ((v + 2 ^ 31) % 2 ^ 32 - 2 ^ 31)
  | _, v => .int v

/-- Embedding of `class _FFB_DATA(ctypes.Structure)`: its `_fields_`
list, in declaration order. -/
def FFB_DATA_fields : List (String × CType) :=
  [("size", CType.c_ulong), ("cmd", CType.c_ulong), ("data", CType.c_char_p)]

/-- The signature of `C_FFB_CALLBACK = ctypes.CFUNCTYPE(None, c_void_p,
c_void_p)`: no return value, two untyped pointer arguments. -/
def C_FFB_CALLBACK_signature : Option CType × List CType :=
  (none, [CType.c_void_p, CType.c_void_p])

/-- One entry of the `api_functions` dictionary: the declared argument
types and the declared return type (`none` models Python `None`, i.e. a
void return).  Every entry in the source dictionary carries both keys,
so the `if "arguments" in params` / `if "returns" in params` guards in
the source always fire. -/
structure FnDecl where
  arguments : List CType
  returns : Option CType
  deriving DecidableEq, Repr

/-- Embedding of `VJoyInterface.api_functions`, in source (insertion)
order. -/
def api_functions : List (String × FnDecl) :=
  [ ("GetvJoyVersion", ⟨[], some .c_short⟩),
    ("vJoyEnabled", ⟨[], some .c_bool⟩),
    ("GetvJoyProductString", ⟨[], some .c_wchar_p⟩),
    ("GetvJoyManufacturerString", ⟨[], some .c_wchar_p⟩),
    ("GetvJoySerialNumberString", ⟨[], some .c_wchar_p⟩),
    ("GetVJDButtonNumber", ⟨[.c_uint], some .c_int⟩),
    ("GetVJDDiscPovNumber", ⟨[.c_uint], some .c_int⟩),
    ("GetVJDContPovNumber", ⟨[.c_uint], some .c_int⟩),
    ("GetVJDAxisExist", ⟨[.c_uint, .c_uint], some .c_int⟩),
    ("GetVJDAxisMax", ⟨[.c_uint, .c_uint, .c_void_p], some .c_bool⟩),
    ("GetVJDAxisMin", ⟨[.c_uint, .c_uint, .c_void_p], some .c_bool⟩),
    ("GetOwnerPid", ⟨[.c_uint], some .c_int⟩),
    ("AcquireVJD", ⟨[.c_uint], some .c_bool⟩),
    ("RelinquishVJD", ⟨[.c_uint], none⟩),
    ("UpdateVJD", ⟨[.c_uint, .c_void_p], some .c_bool⟩),
    ("GetVJDStatus", ⟨[.c_uint], some .c_int⟩),
    ("ResetVJD", ⟨[.c_uint], some .c_bool⟩),
    ("ResetAll", ⟨[], none⟩),
    ("ResetButtons", ⟨[.c_uint], some .c_bool⟩),
    ("ResetPovs", ⟨[.c_uint], some .c_bool⟩),
    ("SetAxis", ⟨[.c_long, .c_uint, .c_uint], some .c_bool⟩),
    ("SetBtn", ⟨[.c_bool, .c_uint, .c_ubyte], some .c_bool⟩),
    ("SetDiscPov", ⟨[.c_int, .c_uint, .c_ubyte], some .c_bool⟩),
    ("SetContPov", ⟨[.c_ulong, .c_uint, .c_ubyte], some .c_bool⟩),
    ("FfbStart", ⟨[.c_uint], some .c_bool⟩),
    ("FfbStop", ⟨[.c_uint], some .c_bool⟩),
    ("IsDeviceFfb", ⟨[.c_uint], some .c_bool⟩),
    ("FfbRegisterGenCB", ⟨[.c_ffb_callback, .c_void_p], none⟩),
    ("Ffb_h_Type", ⟨[.c_void_p, .c_void_p], some .c_uint32⟩) ]

/-- A native symbol bound onto the class by `VJoyInterface.initialize`:
the typed callable with its attached `argtypes` and `restype`. -/
structure BoundFn where
  name : String
  argtypes : List CType
  restype : Option CType
  deriving DecidableEq, Repr

/-- Embedding of the loop body of `VJoyInterface.initialize`: iterate
over the declared function table in order; `getattr(cls.vjoy_dll,
fn_name)` raises at the first symbol the loaded library does not
export (modelled by `lib` returning `none`), otherwise the declared
argument and return types are attached and the typed callable is
installed.  The loaded library is modelled as its symbol table
`lib : String → Option Unit`. -/
def bindSymbols (lib : String → Option Unit) :
    List (String × FnDecl) → Except String (List BoundFn)
  | [] => .ok []
  | (fn_name, params) :: rest =>
    match lib fn_name with
    | none => .error ("function " ++ fn_name ++ " not found")
    | some _ =>
      match bindSymbols lib rest with
      | .error e => .error e
      | .ok bs => .ok (⟨fn_name, params.arguments, params.returns⟩ :: bs)

/-- Embedding of the dll-location logic at the top of `VJoyInterface`:
the filesystem is modelled by the predicate `isfile`, and
`dev_path = os.path.join(os.path.dirname(__file__), "vJoyInterface.dll")`
(the candidate alongside the module's own directory) is passed in as a
parameter.  The working-directory candidate `"vJoyInterface.dll"` is
checked first, then `dev_path`; if neither exists a `GremlinError` is
raised, modelled as `Except.error`. -/
def selectDllPath (isfile : String → Bool) (dev_path : String) :
    Except String String :=
  if isfile "vJoyInterface.dll" then .ok "vJoyInterface.dll"
  else if isfile dev_path then .ok dev_path
  else .error "Unable to locate vjoy dll"

/-- The trampoline object `C_FFB_CALLBACK(callback)` wrapping a host
callback (callbacks are identified by a numeric id in the model). -/
structure CFFBCallback where
  callback : Nat
  deriving DecidableEq, Repr

/-- An argument value handed to a native call in the model. -/
inductive CArg where
  | trampoline : CFFBCallback → CArg
  | byref_c_uint : Nat → CArg
  deriving DecidableEq, Repr

/-- The mutable class-level state touched by
`VJoyInterface.set_ffb_event_callback`: the single
`ffb_callback_fn` slot, plus the log of calls made into the native
library. -/
structure FFBRegState where
  ffb_callback_fn : Option CFFBCallback
  nativeCalls : List (String × List CArg)
  deriving DecidableEq, Repr

/-- Embedding of `VJoyInterface.set_ffb_event_callback`: overwrite the
single `ffb_callback_fn` slot with the new trampoline, then call
`FfbRegisterGenCB(ffb_callback_fn, ctypes.byref(ctypes.c_uint(vjoy_id)))`
— the device id is wrapped as an unsigned 32-bit integer and passed by
address. -/
def set_ffb_event_callback (st : FFBRegState) (callback : Nat)
    (vjoy_id : Nat) : FFBRegState :=
  let fn : CFFBCallback := ⟨callback⟩
  { ffb_callback_fn := some fn,
    nativeCalls := st.nativeCalls ++
      [("FfbRegisterGenCB",
        [CArg.trampoline fn, CArg.byref_c_uint (vjoy_id % 2 ^ 32)])] }

/-- Running a sequence of `set_ffb_event_callback` calls, each a
`(callback, vjoy_id)` pair, from a given state. -/
def applyFFBRegistrations (st : FFBRegState) :
    List (Nat × Nat) → FFBRegState
  | [] => st
  | (cb, id) :: rest =>
    applyFFBRegistrations (set_ffb_event_callback st cb id) rest

end VJoy

deriving instance DecidableEq for Except

namespace VJoy

/-- C1 (counterexample): the claim fails on the code at two concrete
inputs.  First, `0x09` lies inside the claimed "write" sub-range
0x01–0x0E but `from_ctype` raises on it (no enum member has value 9).
Second, decoding `0x0B` yields `PT_BLKFRREP` whose `.value` is the
one-element tuple `(0x0B,)`, not the integer `0x0B`, so taking the
member's value does not return the original code. -/
theorem from_ctype_bijection_counterexample :
    ((0x01 : Int) ≤ 9 ∧ (9 : Int) ≤ 0x0E
      ∧ FFBPType.from_ctype 9 = .error "Invalid ffb type value 9")
    ∧ (FFBPType.from_ctype 0x0B = .ok .PT_BLKFRREP
      ∧ FFBPType.value .PT_BLKFRREP ≠ .int 0x0B) := by
  decide

/-- C1 (amended): over the code set actually declared by the enum
(0x01–0x0E without 0x09, plus 0x11–0x13), `from_ctype` succeeds and
returns a named member whose `.value` is the one-element tuple holding
the original code (so unpacking that tuple re-encodes the member back
to the code); the decode is a bijection between this code set and the
sixteen enum members: every member is hit, and distinct codes decode to
distinct members. -/
theorem from_ctype_bijection :
    (∀ v ∈ ffbCodeSet, ∃ t : FFBPType,
        FFBPType.from_ctype v = .ok t ∧ FFBPType.value t = .tuple [v])
    ∧ (∀ t : FFBPType, ∃ v ∈ ffbCodeSet, FFBPType.from_ctype v = .ok t)
    ∧ (∀ v ∈ ffbCodeSet, ∀ w ∈ ffbCodeSet,
        FFBPType.from_ctype v = FFBPType.from_ctype w → v = w) := by
  refine ⟨by decide, by decide, by decide⟩

/-- Witness for C1 (amended) at the concrete code `0x02`. -/
theorem from_ctype_bijection_witness :
    ∃ t : FFBPType, FFBPType.from_ctype 0x02 = .ok t
      ∧ FFBPType.value t = .tuple [0x02] :=
  from_ctype_bijection.1 0x02 (by decide)

/-- C2: for every integer outside the code set accepted by the decoder,
`from_ctype` raises a `GremlinError` (it never returns a sentinel or
default member), and the message names the exact offending value.
Since the accepted code set is contained in the spec's nominal closed
set, this covers in particular every value outside the spec's closed
set. -/
theorem from_ctype_invalid_error :
    ∀ v : Int, v ∉ ffbCodeSet →
      FFBPType.from_ctype v
        = .error ("Invalid ffb type value " ++ toString v) := by
  intro v hv
  simp only [ffbCodeSet, List.mem_cons, List.not_mem_nil, or_false,
    not_or] at hv
  obtain ⟨h1, h2, h3, h4, h5, h6, h7, h8, h10, h11, h12, h13, h14,
    h17, h18, h19⟩ := hv
  simp [FFBPType.from_ctype, h1, h2, h3, h4, h5, h6, h7, h8, h10, h11,
    h12, h13, h14, h17, h18, h19]

/-- Witness for C2 at the concrete out-of-set value `0x0F = 15`. -/
theorem from_ctype_invalid_error_witness :
    FFBPType.from_ctype 0x0F
      = .error ("Invalid ffb type value " ++ toString (0x0F : Int)) :=
  from_ctype_invalid_error 0x0F (by decide)

/-- C3: decoding `0x0B` yields `PT_BLKFRREP`, decoding `0x13` yields
`PT_POOLREP`, and decoding `0x09` fails with an error naming the
value 9. -/
theorem from_ctype_concrete :
    FFBPType.from_ctype 0x0B = .ok .PT_BLKFRREP
    ∧ FFBPType.from_ctype 0x13 = .ok .PT_POOLREP
    ∧ FFBPType.from_ctype 0x09 = .error "Invalid ffb type value 9" := by
  decide

/-- C4: the status-code → device-state conversion (modelled from the
spec, see `vjoyStateFromCode`) is total and never fails: 0, 1, 2, 3
map to `Owned`, `Free`, `Bust`, `Missing` — the variants the source
enum declares with exactly those codes — and every other integer
(in particular -1, 99 and 1000) maps to `Unknown`. -/
theorem vjoy_state_conversion :
    vjoyStateFromCode 0 = .Owned
    ∧ vjoyStateFromCode 1 = .Free
    ∧ vjoyStateFromCode 2 = .Bust
    ∧ vjoyStateFromCode 3 = .Missing
    ∧ (VJoyState.code .Owned = 0 ∧ VJoyState.code .Free = 1
        ∧ VJoyState.code .Bust = 2 ∧ VJoyState.code .Missing = 3)
    ∧ vjoyStateFromCode (-1) = .Unknown
    ∧ vjoyStateFromCode 99 = .Unknown
    ∧ vjoyStateFromCode 1000 = .Unknown
    ∧ ∀ v : Int, v ≠ 0 → v ≠ 1 → v ≠ 2 → v ≠ 3 →
        vjoyStateFromCode v = .Unknown := by
  refine ⟨by decide, by decide, by decide, by decide, by decide,
    by decide, by decide, by decide, ?_⟩
  intro v h0 h1 h2 h3
  simp [vjoyStateFromCode, h0, h1, h2, h3]

/-- Witness for C4 at the concrete out-of-range code 7. -/
theorem vjoy_state_conversion_witness :
    vjoyStateFromCode 7 = VJoyState.Unknown :=
  vjoy_state_conversion.2.2.2.2.2.2.2.2 7 (by decide) (by decide)
    (by decide) (by decide)

/-- C10: because every `FFBPType` member is declared with a trailing
comma, each member's `.value` is the one-element tuple `(v,)`, not the
integer `v`: for every code in the declared set, decoding succeeds and
the resulting member's value equals the tuple and differs from the bare
integer, so recovering the code requires unpacking the tuple. -/
theorem ffb_value_is_tuple :
    ∀ v ∈ ffbCodeSet, ∃ t : FFBPType,
      FFBPType.from_ctype v = .ok t
      ∧ FFBPType.value t = .tuple [v]
      ∧ FFBPType.value t ≠ .int v := by
  decide

/-- Witness for C10 at the concrete code `0x03`. -/
theorem ffb_value_is_tuple_witness :
    ∃ t : FFBPType, FFBPType.from_ctype 0x03 = .ok t
      ∧ FFBPType.value t = .tuple [0x03]
      ∧ FFBPType.value t ≠ .int 0x03 :=
  ffb_value_is_tuple 0x03 (by decide)

/-- C5: dll discovery tries the working-directory candidate
`"vJoyInterface.dll"` first and the module-directory candidate second;
the first existing file wins (so when both exist the working-directory
candidate is chosen), and when neither exists a `GremlinError` aborts
startup. -/
theorem dll_discovery :
    ∀ (isfile : String → Bool) (dev_path : String),
      (isfile "vJoyInterface.dll" = true →
        selectDllPath isfile dev_path = .ok "vJoyInterface.dll")
      ∧ (isfile "vJoyInterface.dll" = false → isfile dev_path = true →
        selectDllPath isfile dev_path = .ok dev_path)
      ∧ (isfile "vJoyInterface.dll" = false → isfile dev_path = false →
        selectDllPath isfile dev_path
          = .error "Unable to locate vjoy dll") := by
  intro isfile dev_path
  refine ⟨fun h => by simp [selectDllPath, h],
    fun h1 h2 => by simp [selectDllPath, h1, h2],
    fun h1 h2 => by simp [selectDllPath, h1, h2]⟩

/-- Witness for C5 on a filesystem where both candidates exist: the
working-directory candidate is chosen. -/
theorem dll_discovery_witness :
    selectDllPath (fun _ => true) "module_dir/vJoyInterface.dll"
      = .ok "vJoyInterface.dll" :=
  (dll_discovery (fun _ => true) "module_dir/vJoyInterface.dll").1 rfl

/-- After any nonempty sequence of `set_ffb_event_callback` calls, the
single `ffb_callback_fn` slot holds exactly the trampoline of the most
recent call. -/
theorem applyFFBRegistrations_last (regs : List (Nat × Nat)) :
    ∀ (st : FFBRegState) (h : regs ≠ []),
      (applyFFBRegistrations st regs).ffb_callback_fn
        = some ⟨(regs.getLast h).1⟩ := by
  induction regs with
  | nil => intro st h; exact absurd rfl h
  | cons p rest ih =>
    intro st h
    obtain ⟨cb, id⟩ := p
    cases rest with
    | nil => simp [applyFFBRegistrations, set_ffb_event_callback]
    | cons q qs =>
      exact ih (set_ffb_event_callback st cb id) (by simp)

/-- C6: the process keeps exactly one FFB callback registration slot.
After any nonempty sequence of `set_ffb_event_callback` calls the slot
holds exactly the handler of the most recent call (a second
registration replaces the first), and each individual registration
installs the new trampoline and passes the device id to
`FfbRegisterGenCB` as the address of an unsigned 32-bit integer. -/
theorem ffb_callback_single_slot :
    ∀ (st : FFBRegState) (regs : List (Nat × Nat)) (h : regs ≠ []),
      (applyFFBRegistrations st regs).ffb_callback_fn
        = some ⟨(regs.getLast h).1⟩
      ∧ ∀ (cb vjoy_id : Nat),
          (set_ffb_event_callback st cb vjoy_id).ffb_callback_fn
            = some ⟨cb⟩
          ∧ (set_ffb_event_callback st cb vjoy_id).nativeCalls
            = st.nativeCalls ++
              [("FfbRegisterGenCB",
                [CArg.trampoline ⟨cb⟩,
                 CArg.byref_c_uint (vjoy_id % 2 ^ 32)])] :=
  fun st regs h =>
    ⟨applyFFBRegistrations_last regs st h, fun _ _ => ⟨rfl, rfl⟩⟩

/-- Witness for C6: starting from an empty slot, registering handler 1
and then handler 2 leaves exactly handler 2 installed. -/
theorem ffb_callback_single_slot_witness :
    (applyFFBRegistrations ⟨none, []⟩ [(1, 5), (2, 6)]).ffb_callback_fn
      = some ⟨2⟩ :=
  (ffb_callback_single_slot ⟨none, []⟩ [(1, 5), (2, 6)] (by decide)).1

/-- C7: the `_FFB_DATA` structure has exactly three fields, in order: a
`size` field of native unsigned-long width, a `cmd` (command) field of
the same width, and a `data` (payload) field that is a raw pointer. -/
theorem ffb_data_layout :
    FFB_DATA_fields.length = 3
    ∧ FFB_DATA_fields[0]? = some ("size", CType.c_ulong)
    ∧ FFB_DATA_fields[1]? = some ("cmd", CType.c_ulong)
    ∧ FFB_DATA_fields[2]? = some ("data", CType.c_char_p)
    ∧ CType.isPointer CType.c_char_p = true
    ∧ CType.isPointer CType.c_ulong = false := by
  decide

/-- If every declared symbol is exported by the loaded library, the
binding loop succeeds and binds each table entry, in order, with its
declared argument and return types. -/
theorem bindSymbols_ok (lib : String → Option Unit) :
    ∀ l : List (String × FnDecl),
      (∀ p ∈ l, (lib p.1).isSome) →
      bindSymbols lib l
        = .ok (l.map fun p => ⟨p.1, p.2.arguments, p.2.returns⟩) := by
  intro l
  induction l with
  | nil => intro _; rfl
  | cons p rest ih =>
    intro hall
    obtain ⟨name, params⟩ := p
    have hp : (lib name).isSome := hall (name, params) (by simp)
    obtain ⟨u, hu⟩ := Option.isSome_iff_exists.mp hp
    have hrest := ih (fun q hq => hall q (by simp [hq]))
    simp [bindSymbols, hu, hrest]

/-- If any declared symbol is absent from the loaded library, the
binding loop fails with an error (at initialization time). -/
theorem bindSymbols_missing (lib : String → Option Unit) :
    ∀ l : List (String × FnDecl), ∀ p ∈ l, lib p.1 = none →
      ∃ msg, bindSymbols lib l = .error msg := by
  intro l
  induction l with
  | nil => intro p hp; simp at hp
  | cons q rest ih =>
    intro p hp hnone
    obtain ⟨name, params⟩ := q
    rcases List.mem_cons.mp hp with hEq | hmem
    · subst hEq
      exact ⟨"function " ++ name ++ " not found",
        by simp [bindSymbols, hnone]⟩
    · cases hq : lib name with
      | none =>
        exact ⟨"function " ++ name ++ " not found",
          by simp [bindSymbols, hq]⟩
      | some u =>
        obtain ⟨msg, hmsg⟩ := ih p hmem hnone
        exact ⟨msg, by simp [bindSymbols, hq, hmsg]⟩

/-- C8: over the declared function table (whose symbol names are
pairwise distinct), the binding loop binds every symbol exactly once
with its declared argument and return types when all symbols are
present, and fails with an error at initialization time as soon as any
declared symbol is absent from the loaded library. -/
theorem api_binding :
    ∀ lib : String → Option Unit,
      ((∀ p ∈ api_functions, (lib p.1).isSome) →
        bindSymbols lib api_functions
          = .ok (api_functions.map fun p =>
              ⟨p.1, p.2.arguments, p.2.returns⟩))
      ∧ (∀ p ∈ api_functions, lib p.1 = none →
          ∃ msg, bindSymbols lib api_functions = .error msg)
      ∧ (api_functions.map Prod.fst).Nodup :=
  fun lib =>
    ⟨bindSymbols_ok lib api_functions,
     bindSymbols_missing lib api_functions,
     by decide⟩

/-- Witness for C8 on a library exporting every symbol: binding
succeeds and produces the declared table. -/
theorem api_binding_witness :
    bindSymbols (fun _ => some ()) api_functions
      = .ok (api_functions.map fun p =>
          ⟨p.1, p.2.arguments, p.2.returns⟩) :=
  (api_binding (fun _ => some ())).1 (fun _ _ => rfl)

/-- C9: the table entry for `GetVJDAxisExist` declares a raw signed
`c_int` return type (not `c_bool`) with two `c_uint` arguments, and
with that restype ctypes hands back the native 32-bit integer
unchanged for every value in the signed 32-bit range — it is not
collapsed to a boolean. -/
theorem axis_exist_raw_int :
    api_functions.lookup "GetVJDAxisExist"
      = some ⟨[CType.c_uint, CType.c_uint], some CType.c_int⟩
    ∧ CType.c_int ≠ CType.c_bool
    ∧ ∀ v : Int, -(2 ^ 31) ≤ v → v < 2 ^ 31 →
        interpretRestype CType.c_int v = .int v := by
  refine ⟨by decide, by decide, ?_⟩
  intro v h1 h2
  simp only [interpretRestype]
  have h32 : ((2 : Int) ^ 31) = 2147483648 := by norm_num
  have h64 : ((2 : Int) ^ 32) = 4294967296 := by norm_num
  rw [h32, h64] at *
  have : (v + 2147483648) % 4294967296 - 2147483648 = v := by omega
  rw [this]

/-- Witness for C9 at the concrete in-range value 1. -/
theorem axis_exist_raw_int_witness :
    interpretRestype CType.c_int 1 = PyVal.int 1 :=
  axis_exist_raw_int.2.2 1 (by norm_num) (by norm_num)

end VJoy
